import Mathlib

/-!
Verification of the pdf-formbot repository.

The repository has two TypeScript entry points:
 - `src/analyze.ts` (the batch analyzer): downloads PDFs, sends them to an
   external classification oracle, normalizes the oracle's JSON reply into a
   `FormAnalysis` record, and writes CSV/JSON reports; and
 - the evaluation script: compares human-reviewer annotations against the
   machine records field by field.

This file is a shallow embedding of the string-processing, normalization,
comparison and error-capture logic of those two programs.  JavaScript strings
are modelled as Lean `String`s; `toLowerCase`, `trim`, `includes`,
`startsWith` and `split` are modelled by the character-list operations below
(equivalent to the Lean core versions, but written so that they evaluate by
kernel reduction).  External effects (HTTP fetch, the oracle's file store and
generation endpoints, regular-expression matching and JSON parsing of the
oracle's free-text reply) are modelled as environments of possibly-failing
functions, exactly at the call sites where the source awaits them.
-/

/-- Model of JavaScript `String.prototype.toLowerCase` (character-wise, as in
Lean core `String.toLower`). -/
def lowerStr (s : String) : String := String.mk (s.toList.map Char.toLower)

/-- Model of JavaScript `String.prototype.trim`: drop whitespace from both
ends. -/
def trimStr (s : String) : String :=
  String.mk (((s.toList.dropWhile Char.isWhitespace).reverse.dropWhile
    Char.isWhitespace).reverse)

/-- Model of JavaScript `s.includes(pat)`: `pat` occurs contiguously in `s`. -/
abbrev includesStr (s pat : String) : Prop := pat.toList <:+: s.toList

/-- Model of JavaScript `s.startsWith(pat)`. -/
def startsWithStr (s pat : String) : Bool := pat.toList.isPrefixOf s.toList

/-- Model of JavaScript `content.split(sep)` for a one-character separator. -/
def splitChar (sep : Char) (cs : List Char) : List (List Char) :=
  match cs with
  | [] => [[]]
  | c :: rest =>
    let r := splitChar sep rest
    if c = sep then [] :: r
    else
      match r with
      | [] => [[c]]
      | seg :: segs => (c :: seg) :: segs

/-- Model of JavaScript `[...new Set(l)]`: deduplicate keeping the first
occurrence of each element, in order. -/
def dedupFirst (l : List String) : List String :=
  l.foldl (fun acc x => if x ∈ acc then acc else acc ++ [x]) []

/-- The five sensitivity booleans (`sensitiveInfo` in both programs). -/
structure SensFlags where
  ssn : Bool
  driversLicense : Bool
  financial : Bool
  health : Bool
  criminalHistory : Bool
deriving DecidableEq

/-- All five flags false: the default/initial `sensitiveInfo` value. -/
def SensFlags.allFalse : SensFlags := ⟨false, false, false, false, false⟩

/-- The `sensitiveItems` list both programs build by successive pushes:
one fixed label per true flag, in the order SSN, DL#, Financial, Health,
Criminal. -/
def sensitiveItemsOf (f : SensFlags) : List String :=
  (if f.ssn then ["SSN"] else []) ++
  (if f.driversLicense then ["DL#"] else []) ++
  (if f.financial then ["Financial"] else []) ++
  (if f.health then ["Health"] else []) ++
  (if f.criminalHistory then ["Criminal"] else [])

namespace Evaluation

/-- One row of the human ground-truth spreadsheet (`HumanReview`). -/
structure HumanReview where
  url : String
  isForm : String
  formType : String
  sensitiveInfo : String
  reviewer : String
  notes : String

/-- The machine record the evaluation script works with (`LLMAnalysis`);
`isForm` is one of the strings "Yes", "No", "Error". -/
structure LLMAnalysis where
  url : String
  isForm : String
  formType : String
  sensitiveInfo : SensFlags
  notes : String
  error : Option String

/-- Source `normalizeFormType` of the evaluation script: keyword rules mapping free
text onto "Fillable PDF" / "Non-Fillable PDF" / "N/A", else the raw string
verbatim (and the empty string for empty input). -/
def normalizeFormType (type : String) : String :=
  if type = "" then ""
  else
    let t := trimStr (lowerStr type)
    if includesStr t "fillable" then "Fillable PDF"
    else if includesStr t "non-fillable" ∨ includesStr t "nonfillable" then "Non-Fillable PDF"
    else if t = "n/a" ∨ t = "na" then "N/A"
    else type

/-- Source `formatSensitiveInfo` of the evaluation script: comma-joined labels of the
true flags, or "No" when none is set. -/
def formatSensitiveInfo (info : SensFlags) : String :=
  let items := sensitiveItemsOf info
  if items.length > 0 then String.intercalate ", " items else "No"

/-- Source `normalizeSensitiveForComparison` of the evaluation script: the tiered
sensitivity-match rule on the two lower-cased, trimmed summaries. -/
def normalizeSensitiveForComparison (human llm : String) : Bool :=
  let humanLower := trimStr (lowerStr human)
  let llmLower := trimStr (lowerStr llm)
  if humanLower = "no" ∨ humanLower = "" then
    decide (llmLower = "no" ∨ llmLower = "")
  else if humanLower = "yes" ∨ includesStr humanLower "ssn" ∨ includesStr humanLower "dl" then
    decide (llmLower ≠ "no" ∧ llmLower ≠ "")
  else
    decide (humanLower = llmLower)

/-- One output row of the evaluation script (`ComparisonResult`). -/
structure ComparisonResult where
  url : String
  humanIsForm : String
  llmIsForm : String
  isFormMatch : Bool
  humanFormType : String
  llmFormType : String
  formTypeMatch : Bool
  humanSensitive : String
  llmSensitive : String
  sensitiveMatch : Bool
  allMatch : Bool
  humanReviewer : String
  humanNotes : String
  llmNotes : String

/-- Source `compare` of the evaluation script: the three per-field match flags and
their conjunction. -/
def compare (human : HumanReview) (llm : LLMAnalysis) : ComparisonResult :=
  let humanFormType := normalizeFormType human.formType
  let llmFormType := normalizeFormType llm.formType
  let llmSensitive := formatSensitiveInfo llm.sensitiveInfo
  let isFormMatch := decide (lowerStr human.isForm = lowerStr llm.isForm)
  let formTypeMatch := decide (lowerStr humanFormType = lowerStr llmFormType ∨
    (lowerStr human.isForm = "no" ∧ llm.isForm = "No"))
  let sensitiveMatch := normalizeSensitiveForComparison human.sensitiveInfo llmSensitive
  { url := human.url
    humanIsForm := human.isForm
    llmIsForm := llm.isForm
    isFormMatch := isFormMatch
    humanFormType := human.formType
    llmFormType := llm.formType
    formTypeMatch := formTypeMatch
    humanSensitive := human.sensitiveInfo
    llmSensitive := llmSensitive
    sensitiveMatch := sensitiveMatch
    allMatch := isFormMatch && formTypeMatch && sensitiveMatch
    humanReviewer := human.reviewer
    humanNotes := human.notes
    llmNotes := llm.notes }

end Evaluation

/-- C1: the comparator's sensitivity match is the tiered rule.  Writing `hl`
and `ml` for the lower-cased, trimmed human and machine summaries: if `hl` is
empty or "no", the match holds iff `ml` is empty or "no"; otherwise, if `hl`
is "yes" or mentions "ssn" or "dl", the match holds iff `ml` is neither empty
nor "no"; otherwise the match holds iff `hl = ml`.  In particular human "Yes"
with machine "SSN, Financial" matches, human "Yes" with machine "" does not,
and human "" with machine "" matches. -/
theorem sensitivityMatch_tiers (h m : String) :
    ((trimStr (lowerStr h) = "" ∨ trimStr (lowerStr h) = "no") →
      (Evaluation.normalizeSensitiveForComparison h m = true ↔
        (trimStr (lowerStr m) = "" ∨ trimStr (lowerStr m) = "no"))) ∧
    (¬(trimStr (lowerStr h) = "" ∨ trimStr (lowerStr h) = "no") →
      (trimStr (lowerStr h) = "yes" ∨ includesStr (trimStr (lowerStr h)) "ssn" ∨
        includesStr (trimStr (lowerStr h)) "dl") →
      (Evaluation.normalizeSensitiveForComparison h m = true ↔
        ¬(trimStr (lowerStr m) = "" ∨ trimStr (lowerStr m) = "no"))) ∧
    (¬(trimStr (lowerStr h) = "" ∨ trimStr (lowerStr h) = "no") →
      ¬(trimStr (lowerStr h) = "yes" ∨ includesStr (trimStr (lowerStr h)) "ssn" ∨
        includesStr (trimStr (lowerStr h)) "dl") →
      (Evaluation.normalizeSensitiveForComparison h m = true ↔
        trimStr (lowerStr h) = trimStr (lowerStr m))) ∧
    Evaluation.normalizeSensitiveForComparison "Yes" "SSN, Financial" = true ∧
    Evaluation.normalizeSensitiveForComparison "Yes" "" = false ∧
    Evaluation.normalizeSensitiveForComparison "" "" = true := by
  refine ⟨?_, ?_, ?_, by decide, by decide, by decide⟩
  · intro hh
    unfold Evaluation.normalizeSensitiveForComparison
    rw [if_pos hh.symm]
    simp [decide_eq_true_iff, or_comm]
  · intro hh hy
    unfold Evaluation.normalizeSensitiveForComparison
    rw [if_neg (fun hc => hh hc.symm), if_pos hy]
    simp only [decide_eq_true_iff]
    constructor
    · rintro ⟨h1, h2⟩ (h3 | h4)
      · exact h2 h3
      · exact h1 h4
    · intro h3
      exact ⟨fun h4 => h3 (Or.inr h4), fun h4 => h3 (Or.inl h4)⟩
  · intro hh hy
    unfold Evaluation.normalizeSensitiveForComparison
    rw [if_neg (fun hc => hh hc.symm), if_neg hy]
    simp [decide_eq_true_iff]

/-- Witness for C1: each tier of `sensitivityMatch_tiers` applied at a
concrete pair of summaries. -/
theorem sensitivityMatch_tiers_witness :
    (Evaluation.normalizeSensitiveForComparison "No" "" = true ↔
      (trimStr (lowerStr "") = "" ∨ trimStr (lowerStr "") = "no")) ∧
    (Evaluation.normalizeSensitiveForComparison "asks for SSN" "Financial" = true ↔
      ¬(trimStr (lowerStr "Financial") = "" ∨ trimStr (lowerStr "Financial") = "no")) ∧
    (Evaluation.normalizeSensitiveForComparison "maybe" "Maybe" = true ↔
      trimStr (lowerStr "maybe") = trimStr (lowerStr "Maybe")) :=
  ⟨(sensitivityMatch_tiers "No" "").1 (by decide),
   (sensitivityMatch_tiers "asks for SSN" "Financial").2.1 (by decide) (by decide),
   (sensitivityMatch_tiers "maybe" "Maybe").2.2.1 (by decide) (by decide)⟩

/-- C2: whenever the human record says "No" (case-insensitively) and the
machine record's `isForm` is exactly "No", the comparator's `formTypeMatch`
is true regardless of the two form-type strings, and `allMatch` is always the
conjunction of the three per-field match flags. -/
theorem compare_notAForm_override (h : Evaluation.HumanReview)
    (l : Evaluation.LLMAnalysis) :
    (lowerStr h.isForm = "no" → l.isForm = "No" →
      (Evaluation.compare h l).formTypeMatch = true) ∧
    (Evaluation.compare h l).allMatch =
      ((Evaluation.compare h l).isFormMatch &&
       (Evaluation.compare h l).formTypeMatch &&
       (Evaluation.compare h l).sensitiveMatch) := by
  constructor
  · intro h1 h2
    unfold Evaluation.compare
    simp only [decide_eq_true_iff]
    exact Or.inr ⟨h1, h2⟩
  · rfl

/-- Concrete records for the C2 witness: a human "No" with a fillable form
type against a machine "No" with formType "Unknown". -/
def sampleHumanNo : Evaluation.HumanReview :=
  { url := "https://x.test/a.pdf", isForm := "No", formType := "Fillable PDF",
    sensitiveInfo := "", reviewer := "r", notes := "" }

/-- Machine side of the C2 witness. -/
def sampleLlmNo : Evaluation.LLMAnalysis :=
  { url := "https://x.test/a.pdf", isForm := "No", formType := "Unknown",
    sensitiveInfo := SensFlags.allFalse, notes := "", error := none }

/-- Witness for C2: the override fires on the concrete disagreeing pair. -/
theorem compare_notAForm_override_witness :
    (Evaluation.compare sampleHumanNo sampleLlmNo).formTypeMatch = true ∧
    (Evaluation.compare sampleHumanNo sampleLlmNo).allMatch =
      ((Evaluation.compare sampleHumanNo sampleLlmNo).isFormMatch &&
       (Evaluation.compare sampleHumanNo sampleLlmNo).formTypeMatch &&
       (Evaluation.compare sampleHumanNo sampleLlmNo).sensitiveMatch) :=
  ⟨(compare_notAForm_override sampleHumanNo sampleLlmNo).1 (by decide) rfl,
   (compare_notAForm_override sampleHumanNo sampleLlmNo).2⟩

/-- C3 (bug evidence): because "non-fillable" and "nonfillable" both contain
"fillable" as a substring, the evaluation script's first keyword rule fires
first and the "Non-Fillable PDF" branch is unreachable: any input containing
"non-fillable" — including the canonical annotation "Non-Fillable PDF"
itself — normalizes to "Fillable PDF". -/
theorem evalNormalizeFormType_nonfillable_bug :
    Evaluation.normalizeFormType "non-fillable" = "Fillable PDF" ∧
    Evaluation.normalizeFormType "Non-Fillable PDF" = "Fillable PDF" ∧
    Evaluation.normalizeFormType "nonfillable" = "Fillable PDF" := by
  refine ⟨by decide, by decide, by decide⟩

namespace Analyze

/-- The possibly-absent fields of the oracle's parsed JSON reply, as consumed
by `FormAnalyzer.normalizeResponse` in `src/analyze.ts`.  A JavaScript
`undefined` field is `none`; the five nested sensitivity fields are the
truthiness of the corresponding JSON values. -/
structure Parsed where
  isForm : Option String
  formType : String
  sensitiveInfo : Option SensFlags
  confidence : Option ℚ
  pageCount : Option ℚ
  notes : String

/-- The fragment `normalizeResponse` returns (the `Partial<FormAnalysis>`
that is assigned onto the result record). -/
structure Fragment where
  isForm : String
  formType : String
  sensitiveInfo : SensFlags
  sensitiveInfoSummary : String
  confidence : ℚ
  pageCount : ℚ
  notes : String
deriving DecidableEq

/-- Source `FormAnalyzer.normalizeFormType` of `src/analyze.ts`: ordered keyword
rules over the lower-cased, trimmed raw type; empty input yields "N/A" and
unmatched input yields "Unknown". -/
def normalizeFormType (type : String) : String :=
  if type = "" then "N/A"
  else
    let normalized := trimStr (lowerStr type)
    if includesStr normalized "fillable" ∧ includesStr normalized "pdf" then "Fillable PDF"
    else if includesStr normalized "non-fillable" ∨ includesStr normalized "nonfillable" then
      "Non-Fillable PDF"
    else if includesStr normalized "google" then "Google form"
    else if includesStr normalized "airtable" then "Airtable form"
    else if includesStr normalized "office" ∨ includesStr normalized "excel" then
      "MS Office form"
    else if includesStr normalized "word" then "MS Word document"
    else if includesStr normalized "phone" then "Phone"
    else if includesStr normalized "email" then "Email"
    else if includesStr normalized "digital" ∨ includesStr normalized "printable" then
      "Non-Fillable PDF"
    else if normalized = "n/a" ∨ normalized = "not a form" then "N/A"
    else if includesStr normalized "pdf" then "Non-Fillable PDF"
    else "Unknown"

/-- Source `FormAnalyzer.normalizeResponse` of `src/analyze.ts`: coerce the five
sensitivity fields (missing object means all false), normalize `isForm` to
"Yes"/"No" and the form type through `normalizeFormType`, build the
comma-joined sensitivity summary (or "None"), and default the numeric fields
to 0.5 and 0. -/
def normalizeResponse (parsed : Parsed) : Fragment :=
  let sensitiveInfo : SensFlags :=
    { ssn := ((parsed.sensitiveInfo.map (·.ssn)).getD false)
      driversLicense := ((parsed.sensitiveInfo.map (·.driversLicense)).getD false)
      financial := ((parsed.sensitiveInfo.map (·.financial)).getD false)
      health := ((parsed.sensitiveInfo.map (·.health)).getD false)
      criminalHistory := ((parsed.sensitiveInfo.map (·.criminalHistory)).getD false) }
  let sensitiveItems := sensitiveItemsOf sensitiveInfo
  { isForm := if parsed.isForm = some "Yes" then "Yes" else "No"
    formType := normalizeFormType parsed.formType
    sensitiveInfo := sensitiveInfo
    sensitiveInfoSummary :=
      if sensitiveItems.length > 0 then String.intercalate ", " sensitiveItems else "None"
    confidence := parsed.confidence.getD (1 / 2)
    pageCount := parsed.pageCount.getD 0
    notes := parsed.notes }

/-- A fragment re-read as a parsed oracle reply whose every field is present:
the input on which the claim of idempotence evaluates `normalizeResponse` a
second time. -/
def fragAsParsed (f : Fragment) : Parsed :=
  { isForm := some f.isForm
    formType := f.formType
    sensitiveInfo := some f.sensitiveInfo
    confidence := some f.confidence
    pageCount := some f.pageCount
    notes := f.notes }

end Analyze

/-- Any keyword rule of `Analyze.normalizeFormType` matching the lower-cased,
trimmed raw type (one disjunct per `if` condition, in source order). -/
abbrev formTypeRuleMatches (t : String) : Prop :=
  (includesStr t "fillable" ∧ includesStr t "pdf") ∨
  (includesStr t "non-fillable" ∨ includesStr t "nonfillable") ∨
  includesStr t "google" ∨ includesStr t "airtable" ∨
  (includesStr t "office" ∨ includesStr t "excel") ∨
  includesStr t "word" ∨ includesStr t "phone" ∨ includesStr t "email" ∨
  (includesStr t "digital" ∨ includesStr t "printable") ∨
  (t = "n/a" ∨ t = "not a form") ∨ includesStr t "pdf"

/-- C5: any raw form type containing both "fillable" and "pdf" (after
lower-casing and trimming) normalizes to "Fillable PDF", before every later
rule; the empty raw type yields "N/A"; a non-empty raw type matching no rule
yields "Unknown". -/
theorem normalizeFormType_fillable_priority (s : String) :
    (includesStr (trimStr (lowerStr s)) "fillable" →
      includesStr (trimStr (lowerStr s)) "pdf" →
      Analyze.normalizeFormType s = "Fillable PDF") ∧
    Analyze.normalizeFormType "" = "N/A" ∧
    (s ≠ "" → ¬ formTypeRuleMatches (trimStr (lowerStr s)) →
      Analyze.normalizeFormType s = "Unknown") := by
  refine ⟨?_, by decide, ?_⟩
  · intro h1 h2
    have hs : s ≠ "" := by
      intro he
      subst he
      exact absurd h1 (by decide)
    unfold Analyze.normalizeFormType
    rw [if_neg hs, if_pos ⟨h1, h2⟩]
  · intro hs hr
    unfold formTypeRuleMatches at hr
    unfold Analyze.normalizeFormType
    rw [if_neg hs, if_neg (by tauto), if_neg (by tauto), if_neg (by tauto),
      if_neg (by tauto), if_neg (by tauto), if_neg (by tauto), if_neg (by tauto),
      if_neg (by tauto), if_neg (by tauto), if_neg (by tauto), if_neg (by tauto)]

/-- Witness for C5: the three parts of `normalizeFormType_fillable_priority`
at concrete raw types. -/
theorem normalizeFormType_fillable_priority_witness :
    Analyze.normalizeFormType "PDF (fillable)" = "Fillable PDF" ∧
    Analyze.normalizeFormType "" = "N/A" ∧
    Analyze.normalizeFormType "paper survey" = "Unknown" :=
  ⟨(normalizeFormType_fillable_priority "PDF (fillable)").1 (by decide) (by decide),
   (normalizeFormType_fillable_priority "x").2.1,
   (normalizeFormType_fillable_priority "paper survey").2.2 (by decide) (by decide)⟩

/-- An already-canonical machine-record fragment with form type
"Non-Fillable PDF": `isForm` canonical, flags all false, summary consistent
with the flags. -/
def canonNonFillable : Analyze.Fragment :=
  { isForm := "Yes", formType := "Non-Fillable PDF",
    sensitiveInfo := SensFlags.allFalse, sensitiveInfoSummary := "None",
    confidence := 1 / 2, pageCount := 0, notes := "" }

/-- C4 (bug evidence): renormalizing the already-canonical fragment with form
type "Non-Fillable PDF" is not a no-op — "Non-Fillable PDF" contains both
"fillable" and "pdf", so the first keyword rule rewrites it to
"Fillable PDF".  The canonical value is not a fixed point, contradicting the
analyzer's own closed vocabulary (its prompt instructs the oracle to answer
exactly "Non-Fillable PDF"). -/
theorem normalizeResponse_not_idempotent_onNonFillable :
    (Analyze.normalizeResponse (Analyze.fragAsParsed canonNonFillable)).formType
      = "Fillable PDF" ∧
    canonNonFillable.formType = "Non-Fillable PDF" ∧
    Analyze.normalizeResponse (Analyze.fragAsParsed canonNonFillable) ≠ canonNonFillable := by
  refine ⟨by decide, rfl, ?_⟩
  intro h
  have hft := congrArg Analyze.Fragment.formType h
  rw [show (Analyze.normalizeResponse (Analyze.fragAsParsed canonNonFillable)).formType
      = "Fillable PDF" from by decide] at hft
  exact absurd hft (by decide)

/-- Restatement of the spec's wording for the sensitivity summary: the labels
of precisely the true flags, in the fixed order SSN, DL#, Financial, Health,
Criminal. -/
def sensitiveLabelsSpec (f : SensFlags) : List String :=
  (([("SSN", f.ssn), ("DL#", f.driversLicense), ("Financial", f.financial),
     ("Health", f.health), ("Criminal", f.criminalHistory)]).filter
    (fun x => x.2)).map (fun x => x.1)

/-- The summary expression of `Analyze.normalizeResponse` is "None" exactly on
all-false flags, and otherwise the comma-joined labels of the true flags. -/
lemma summary_spec (f : SensFlags) :
    ((if (sensitiveItemsOf f).length > 0
        then String.intercalate ", " (sensitiveItemsOf f) else "None") = "None"
      ↔ f = SensFlags.allFalse) ∧
    (if (sensitiveItemsOf f).length > 0
        then String.intercalate ", " (sensitiveItemsOf f) else "None") =
      (if sensitiveLabelsSpec f = [] then "None"
        else String.intercalate ", " (sensitiveLabelsSpec f)) := by
  obtain ⟨s, d, fin, hl, c⟩ := f
  cases s <;> cases d <;> cases fin <;> cases hl <;> cases c <;> exact (by decide)

/-- C10: for every parsed oracle reply, the normalized fragment's sensitivity
summary is consistent with its flags: it is "None" exactly when all five
flags are false, and otherwise it is the comma-separated labels of precisely
the true flags in the fixed order SSN, DL#, Financial, Health, Criminal. -/
theorem sensitiveSummary_consistent (p : Analyze.Parsed) :
    ((Analyze.normalizeResponse p).sensitiveInfoSummary = "None" ↔
      (Analyze.normalizeResponse p).sensitiveInfo = SensFlags.allFalse) ∧
    (Analyze.normalizeResponse p).sensitiveInfoSummary =
      (if sensitiveLabelsSpec (Analyze.normalizeResponse p).sensitiveInfo = []
        then "None"
        else String.intercalate ", "
          (sensitiveLabelsSpec (Analyze.normalizeResponse p).sensitiveInfo)) :=
  summary_spec _

/-- Source `escapeField` quote doubling: each internal double quote becomes two
(the effect of `value.replace` with a global quote pattern). -/
def escQuotes : List Char → List Char
  | [] => []
  | c :: rest => if c = '"' then '"' :: '"' :: escQuotes rest else c :: escQuotes rest

/-- Source `escapeField` (identical in `src/analyze.ts` and the evaluation script):
a field containing a comma, a double quote, a newline or a carriage return is
wrapped in double quotes with internal quotes doubled; any other field is
returned unchanged. -/
def escapeField (value : String) : String :=
  if ',' ∈ value.toList ∨ '"' ∈ value.toList ∨ '\n' ∈ value.toList ∨ '\r' ∈ value.toList then
    String.mk (('"' :: escQuotes value.toList) ++ ['"'])
  else value

/-- Modelled from the spec: halving of doubled quotes, the inverse direction
of standard CSV unescaping (the repository itself never reads its CSV back). -/
def unescQuotes : List Char → List Char
  | [] => []
  | [c] => [c]
  | c :: d :: rest =>
    if c = '"' ∧ d = '"' then '"' :: unescQuotes rest
    else c :: unescQuotes (d :: rest)

/-- Modelled from the spec: standard CSV unescaping — strip one pair of
enclosing double quotes and halve doubled quotes; anything not quote-wrapped
is returned unchanged. -/
def unescapeField (s : String) : String :=
  if 2 ≤ s.toList.length ∧ s.toList.head? = some '"' ∧ s.toList.getLast? = some '"' then
    String.mk (unescQuotes s.toList.tail.dropLast)
  else s

/-- Rebuilding a string from its character list is the identity. -/
lemma mk_toList (s : String) : String.mk s.toList = s := by
  cases s
  rfl

/-- Quote doubling never produces the empty list from a non-empty one. -/
lemma escQuotes_nil (cs : List Char) : escQuotes cs = [] ↔ cs = [] := by
  cases cs with
  | nil => simp [escQuotes]
  | cons c rest => by_cases hc : c = '"' <;> simp [escQuotes, hc]

/-- Halving doubled quotes undoes quote doubling. -/
lemma unescQuotes_escQuotes (cs : List Char) : unescQuotes (escQuotes cs) = cs := by
  induction cs with
  | nil => rfl
  | cons c rest ih =>
    by_cases hc : c = '"'
    · subst hc
      have h1 : escQuotes ('"' :: rest) = '"' :: '"' :: escQuotes rest := by
        simp [escQuotes]
      have h2 : unescQuotes ('"' :: '"' :: escQuotes rest)
          = '"' :: unescQuotes (escQuotes rest) := by
        simp [unescQuotes]
      rw [h1, h2, ih]
    · have h1 : escQuotes (c :: rest) = c :: escQuotes rest := by
        simp [escQuotes, hc]
      rw [h1]
      cases hrest : escQuotes rest with
      | nil =>
        rw [(escQuotes_nil rest).mp hrest]
        rfl
      | cons d tail =>
        have h2 : unescQuotes (c :: d :: tail) = c :: unescQuotes (d :: tail) := by
          simp [unescQuotes, hc]
        rw [h2, ← hrest, ih]

/-- C8: the CSV field-escaping function is total and reversible — standard
CSV unescaping (strip enclosing quotes, halve doubled quotes) applied to the
escaped field recovers the original string exactly, for every string. -/
theorem escapeField_roundtrip (v : String) : unescapeField (escapeField v) = v := by
  by_cases hq : (',' ∈ v.toList ∨ '"' ∈ v.toList ∨ '\n' ∈ v.toList ∨ '\r' ∈ v.toList)
  · unfold escapeField
    rw [if_pos hq]
    unfold unescapeField
    simp only [show ∀ l : List Char, (String.mk l).toList = l from fun _ => rfl]
    rw [if_pos ?side]
    case side =>
      exact ⟨by simp, by rw [List.cons_append]; rfl, List.getLast?_concat _⟩
    rw [List.cons_append, List.tail_cons, List.dropLast_concat, unescQuotes_escQuotes]
  · unfold escapeField
    rw [if_neg hq]
    unfold unescapeField
    rw [if_neg ?nohead]
    case nohead =>
      rintro ⟨-, hhead, -⟩
      have hquote : '"' ∈ v.toList := by
        cases hv : v.toList with
        | nil => rw [hv] at hhead; exact absurd hhead (by simp)
        | cons a t =>
          rw [hv] at hhead
          simp only [List.head?_cons, Option.some.injEq] at hhead
          subst hhead
          exact List.mem_cons_self _ _
      exact hq (Or.inr (Or.inl hquote))

/-- The `.txt` branch of `readUrlsFromFile`: trim each line and keep it when
it is non-empty and does not start with "#". -/
def collectTxtUrls : List String → List String
  | [] => []
  | line :: rest =>
    let trimmed := trimStr line
    if trimmed ≠ "" ∧ ¬ startsWithStr trimmed "#" then trimmed :: collectTxtUrls rest
    else collectTxtUrls rest

/-- Source `readUrlsFromFile` on a `.txt` file: split on newlines, keep trimmed
non-empty non-comment lines, and deduplicate via `[...new Set(urls)]`. -/
def readUrlsTxt (content : String) : List String :=
  dedupFirst (collectTxtUrls ((splitChar '\n' content.toList).map String.mk))

/-- Restatement of the spec's wording for the kept lines: the trimmed lines
that are non-empty and do not start with "#", in order of appearance. -/
def keptLines (content : String) : List String :=
  (((splitChar '\n' content.toList).map String.mk).map trimStr).filter
    (fun t => decide (t ≠ "" ∧ ¬ startsWithStr t "#"))

/-- The push loop of the `.txt` branch computes exactly the filter of the
trimmed lines. -/
lemma collectTxtUrls_eq (lines : List String) :
    collectTxtUrls lines = (lines.map trimStr).filter
      (fun t => decide (t ≠ "" ∧ ¬ startsWithStr t "#")) := by
  induction lines with
  | nil => rfl
  | cons line rest ih =>
    by_cases hc : trimStr line ≠ "" ∧ ¬ startsWithStr (trimStr line) "#"
    · simp [collectTxtUrls, hc, List.filter_cons, ih]
    · simp [collectTxtUrls, hc, List.filter_cons, ih]

/-- C9 (as amended): on a line-oriented input the reader returns the trimmed,
non-empty, non-comment lines in order of first appearance with duplicate
lines removed; on the spec's example input it returns exactly the two URLs in
order. -/
theorem readUrlsTxt_characterisation :
    (∀ content, readUrlsTxt content = dedupFirst (keptLines content)) ∧
    readUrlsTxt "https://x.test/a.pdf\n# comment\n\nhttps://x.test/b.pdf" =
      ["https://x.test/a.pdf", "https://x.test/b.pdf"] := by
  constructor
  · intro content
    unfold readUrlsTxt keptLines
    rw [collectTxtUrls_eq]
  · decide

/-- C9 counterexample: on an input that repeats the same URL line, the reader
returns the deduplicated single URL, not "exactly the trimmed lines"
(which would list the URL twice). -/
theorem readUrlsTxt_duplicates_counterexample :
    readUrlsTxt "https://x.test/a.pdf\nhttps://x.test/a.pdf" = ["https://x.test/a.pdf"] ∧
    keptLines "https://x.test/a.pdf\nhttps://x.test/a.pdf" =
      ["https://x.test/a.pdf", "https://x.test/a.pdf"] ∧
    readUrlsTxt "https://x.test/a.pdf\nhttps://x.test/a.pdf" ≠
      keptLines "https://x.test/a.pdf\nhttps://x.test/a.pdf" := by
  refine ⟨by decide, by decide, by decide⟩

namespace Analyze

/-- The oracle's file handle as observed by `files.get`: its processing state
and possibly-absent URI and MIME type. -/
structure GenFile where
  state : String
  uri : Option String
  mimeType : Option String
deriving DecidableEq

/-- Environment of external outcomes for `uploadPdfFromUrl`: whether the HTTP
download succeeds (and its status text), the uploaded size, the file state
observed by the i-th `files.get` call, and the handle's URI and MIME type. -/
structure UploadEnv where
  fetchOk : Bool
  fetchStatus : String
  fileSizeKB : Nat
  states : Nat → String
  fileUri : Option String
  fileMimeType : Option String

/-- The polling loop of `uploadPdfFromUrl`, with the remaining loop budget
made explicit: while the observed state is "PROCESSING" and fewer than 30
loop iterations have run, sleep and observe the next state.  `pollFinal`
enters with `fuel = 30` and `attempts = 0`, so `fuel + attempts = 30`
throughout and the fuel never runs out before the `attempts < 30` test
fails. -/
def pollAux (states : Nat → String) : Nat → Nat → String → String
  | 0, _, cur => cur
  | fuel + 1, attempts, cur =>
    if cur = "PROCESSING" ∧ attempts < 30 then
      pollAux states fuel (attempts + 1) (states (attempts + 1))
    else cur

/-- The file state held after the polling loop exits, starting from the
initial `files.get` observation. -/
def pollFinal (states : Nat → String) : String :=
  pollAux states 30 0 (states 0)

/-- Source `FormAnalyzer.uploadPdfFromUrl` of `src/analyze.ts`: a failed download
throws "Failed to download: ...", a final "FAILED" state throws "Gemini file
processing failed", and otherwise the final observed handle is returned with
the file size. -/
def uploadPdfFromUrl (env : UploadEnv) : Except String (GenFile × Nat) :=
  if env.fetchOk = false then
    .error ("Failed to download: " ++ env.fetchStatus)
  else if pollFinal env.states = "FAILED" then
    .error "Gemini file processing failed"
  else
    .ok ({ state := pollFinal env.states
           uri := env.fileUri
           mimeType := env.fileMimeType }, env.fileSizeKB)

/-- The analyzer's machine record (`FormAnalysis` of `src/analyze.ts`);
wall-clock timing (`processingTimeSec`) is outside the embedding. -/
structure FormAnalysis where
  url : String
  isForm : String
  formType : String
  sensitiveInfo : SensFlags
  sensitiveInfoSummary : String
  confidence : ℚ
  pageCount : ℚ
  fileSizeKB : Nat
  notes : String
  error : Option String

/-- The result record as initialized at the top of `analyzePdf`. -/
def initResult (url : String) : FormAnalysis :=
  { url := url, isForm := "", formType := "N/A",
    sensitiveInfo := SensFlags.allFalse, sensitiveInfoSummary := "",
    confidence := 0, pageCount := 0, fileSizeKB := 0, notes := "",
    error := none }

/-- The `catch` block of `analyzePdf`: record the error message and the
"Error: ..." note on the result built so far. -/
def recordError (r : FormAnalysis) (e : String) : FormAnalysis :=
  { r with error := some e, notes := "Error: " ++ e }

/-- Model of `Object.assign(result, this.normalizeResponse(parsed))`: overwrite the
fragment's fields on the result record. -/
def applyFragment (r : FormAnalysis) (f : Fragment) : FormAnalysis :=
  { r with
    isForm := f.isForm
    formType := f.formType
    sensitiveInfo := f.sensitiveInfo
    sensitiveInfoSummary := f.sensitiveInfoSummary
    confidence := f.confidence
    pageCount := f.pageCount
    notes := f.notes }

/-- Environment of external outcomes for `analyzePdf`: the upload outcomes,
the generation call (its text, "" when absent), the two regular-expression
extractions on the reply text, JSON parsing of the extracted text, and the
best-effort file deletion (whose outcome the source swallows). -/
structure AnalyzeEnv where
  uploadEnv : UploadEnv
  generate : Except String (Option String)
  fencedMatch : String → Option String
  directMatch : String → Option String
  jsonParse : String → Except String Parsed
  deleteResult : Except String Unit

/-- The part of `analyzePdf`'s `try` block that follows a successful upload:
check the handle's URI and MIME type, run the generation call, extract JSON
from the reply text by the fenced pattern or the brace fallback, parse it,
and assign the normalized fragment; each failure goes to the `catch`
block. -/
def analyzeWithFile (env : AnalyzeEnv) (r : FormAnalysis) (file : GenFile) :
    FormAnalysis :=
  if file.uri = none ∨ file.mimeType = none then
    recordError r "File upload succeeded but missing URI or mimeType"
  else
    match env.generate with
    | .error e => recordError r e
    | .ok maybeText =>
      match env.fencedMatch (maybeText.getD "") with
      | some jsonText =>
        match env.jsonParse jsonText with
        | .error e => recordError r e
        | .ok parsed => applyFragment r (normalizeResponse parsed)
      | none =>
        match env.directMatch (maybeText.getD "") with
        | none => recordError r "Could not parse JSON from response"
        | some jsonText =>
          match env.jsonParse jsonText with
          | .error e => recordError r e
          | .ok parsed => applyFragment r (normalizeResponse parsed)

/-- Source `FormAnalyzer.analyzePdf` of `src/analyze.ts`: every failure of the
`try` block — failed download or oracle processing, missing URI or MIME type
on the uploaded handle, failed generation call, no extractable JSON in the
reply, or a JSON parse error — is caught and recorded on the initialized
result (with the file size kept once the upload succeeded); on success the
normalized fragment is assigned over it.  The deletion outcome is swallowed
either way. -/
def analyzePdf (env : AnalyzeEnv) (url : String) : FormAnalysis :=
  match uploadPdfFromUrl env.uploadEnv with
  | .error e => recordError (initResult url) e
  | .ok (file, fileSizeKB) =>
    analyzeWithFile env { initResult url with fileSizeKB := fileSizeKB } file

/-- Source `FormAnalyzer.analyzeAll`: iterate over the URLs, skipping those that
trim to the empty string, analyzing each remaining URL in order (with the
external outcomes of that URL's calls given by `envOf`). -/
def analyzeAll (envOf : String → AnalyzeEnv) : List String → List FormAnalysis
  | [] => []
  | u :: rest =>
    if trimStr u = "" then analyzeAll envOf rest
    else analyzePdf (envOf (trimStr u)) (trimStr u) :: analyzeAll envOf rest

end Analyze

/-- Every branch of `analyzeWithFile` either assigns the normalized fragment
(keeping the error-free state) or records an error while keeping the result
record's `isForm` and sensitivity flags. -/
lemma analyzeWithFile_branches (env : Analyze.AnalyzeEnv)
    (r : Analyze.FormAnalysis) (file : Analyze.GenFile)
    (hr : r.error = none) (hf : r.isForm = "")
    (hs : r.sensitiveInfo = SensFlags.allFalse) :
    (Analyze.analyzeWithFile env r file).error = none ∨
    ((Analyze.analyzeWithFile env r file).error.isSome = true ∧
      (Analyze.analyzeWithFile env r file).isForm = "" ∧
      (Analyze.analyzeWithFile env r file).sensitiveInfo = SensFlags.allFalse) := by
  unfold Analyze.analyzeWithFile
  by_cases huri : file.uri = none ∨ file.mimeType = none
  · rw [if_pos huri]
    exact Or.inr ⟨rfl, hf, hs⟩
  · rw [if_neg huri]
    split
    · exact Or.inr ⟨rfl, hf, hs⟩
    · split
      · split
        · exact Or.inr ⟨rfl, hf, hs⟩
        · exact Or.inl hr
      · split
        · exact Or.inr ⟨rfl, hf, hs⟩
        · split
          · exact Or.inr ⟨rfl, hf, hs⟩
          · exact Or.inl hr

/-- Every branch of `analyzePdf` yields either an error-free record or a
record with an error message, the initial "" `isForm` sentinel and all-false
sensitivity flags. -/
lemma analyzePdf_branches (env : Analyze.AnalyzeEnv) (url : String) :
    (Analyze.analyzePdf env url).error = none ∨
    ((Analyze.analyzePdf env url).error.isSome = true ∧
      (Analyze.analyzePdf env url).isForm = "" ∧
      (Analyze.analyzePdf env url).sensitiveInfo = SensFlags.allFalse) := by
  unfold Analyze.analyzePdf
  cases hup : Analyze.uploadPdfFromUrl env.uploadEnv with
  | error e => exact Or.inr ⟨rfl, rfl, rfl⟩
  | ok pair =>
    obtain ⟨file, kb⟩ := pair
    exact analyzeWithFile_branches env _ file rfl rfl rfl

/-- The batch loop produces one record per URL that does not trim to the
empty string, whatever the per-URL outcomes. -/
lemma analyzeAll_length (envOf : String → Analyze.AnalyzeEnv)
    (urls : List String) :
    (Analyze.analyzeAll envOf urls).length =
      (urls.filter (fun u => decide (trimStr u ≠ ""))).length := by
  induction urls with
  | nil => rfl
  | cons u rest ih =>
    by_cases hu : trimStr u = ""
    · simp [Analyze.analyzeAll, hu, List.filter_cons, ih]
    · simp [Analyze.analyzeAll, hu, List.filter_cons, ih]

/-- C6: `analyzePdf` never throws — on every outcome of the external calls it
returns a record, and whenever that record carries an error message its
`isForm` still holds the "" sentinel it was initialized with and its five
sensitivity flags are all false; a download failure in particular is captured
as "Failed to download: ..."; and the batch loop still yields one record per
non-blank URL. -/
theorem analyzePdf_error_invariant (env : Analyze.AnalyzeEnv) (url : String)
    (envOf : String → Analyze.AnalyzeEnv) (urls : List String) :
    ((Analyze.analyzePdf env url).error.isSome = true →
      (Analyze.analyzePdf env url).isForm = "" ∧
      (Analyze.analyzePdf env url).sensitiveInfo = SensFlags.allFalse) ∧
    (env.uploadEnv.fetchOk = false →
      (Analyze.analyzePdf env url).error =
        some ("Failed to download: " ++ env.uploadEnv.fetchStatus)) ∧
    (Analyze.analyzeAll envOf urls).length =
      (urls.filter (fun u => decide (trimStr u ≠ ""))).length := by
  refine ⟨?_, ?_, analyzeAll_length envOf urls⟩
  · intro hsome
    rcases analyzePdf_branches env url with hnone | ⟨-, h2, h3⟩
    · rw [hnone] at hsome
      exact absurd hsome (by simp)
    · exact ⟨h2, h3⟩
  · intro hfetch
    have hup : Analyze.uploadPdfFromUrl env.uploadEnv =
        .error ("Failed to download: " ++ env.uploadEnv.fetchStatus) := by
      unfold Analyze.uploadPdfFromUrl
      rw [if_pos hfetch]
    unfold Analyze.analyzePdf
    rw [hup]
    rfl

/-- A concrete environment in which the document's retrieval fails with a
404 (the other oracle calls are irrelevant and never reached). -/
def env404 : Analyze.AnalyzeEnv :=
  { uploadEnv :=
      { fetchOk := false, fetchStatus := "404 Not Found", fileSizeKB := 0,
        states := fun _ => "ACTIVE", fileUri := some "files/x",
        fileMimeType := some "application/pdf" }
    generate := .ok none
    fencedMatch := fun _ => none
    directMatch := fun _ => none
    jsonParse := fun _ => .error "Unexpected token"
    deleteResult := .ok () }

/-- Witness for C6: under the 404 environment the record carries the download
error, the "" sentinel and all-false flags, and a batch of two URLs still
yields two records. -/
theorem analyzePdf_error_invariant_witness :
    ((Analyze.analyzePdf env404 "https://x.test/missing.pdf").isForm = "" ∧
      (Analyze.analyzePdf env404 "https://x.test/missing.pdf").sensitiveInfo =
        SensFlags.allFalse) ∧
    (Analyze.analyzePdf env404 "https://x.test/missing.pdf").error =
      some ("Failed to download: " ++ "404 Not Found") ∧
    (Analyze.analyzeAll (fun _ => env404)
      ["https://x.test/missing.pdf", "https://x.test/b.pdf"]).length = 2 :=
  ⟨(analyzePdf_error_invariant env404 "https://x.test/missing.pdf"
      (fun _ => env404) []).1 (by decide),
   (analyzePdf_error_invariant env404 "https://x.test/missing.pdf"
      (fun _ => env404) []).2.1 rfl,
   by
    rw [(analyzePdf_error_invariant env404 "https://x.test/missing.pdf"
      (fun _ => env404) ["https://x.test/missing.pdf", "https://x.test/b.pdf"]).2.2]
    decide⟩

/-- The polling loop never inspects a state beyond observation index
`attempts + fuel`. -/
lemma pollAux_congr (states states' : Nat → String) :
    ∀ (fuel attempts : Nat) (cur : String),
      (∀ i, i ≤ attempts + fuel → states i = states' i) →
      Analyze.pollAux states fuel attempts cur =
        Analyze.pollAux states' fuel attempts cur := by
  intro fuel
  induction fuel with
  | zero => intro attempts cur hagree; rfl
  | succ n ih =>
    intro attempts cur hagree
    simp only [Analyze.pollAux]
    by_cases hc : cur = "PROCESSING" ∧ attempts < 30
    · rw [if_pos hc, if_pos hc, hagree (attempts + 1) (by omega)]
      exact ih (attempts + 1) (states' (attempts + 1)) (fun i hi => hagree i (by omega))
    · rw [if_neg hc, if_neg hc]

/-- If every observed state up to the bound is "PROCESSING", the loop exits
by exhausting its attempt budget with the state still "PROCESSING". -/
lemma pollAux_processing (states : Nat → String) :
    ∀ (fuel attempts : Nat),
      (∀ i, i ≤ attempts + fuel → states i = "PROCESSING") →
      Analyze.pollAux states fuel attempts "PROCESSING" = "PROCESSING" := by
  intro fuel
  induction fuel with
  | zero => intro attempts hall; rfl
  | succ n ih =>
    intro attempts hall
    simp only [Analyze.pollAux]
    by_cases ha : attempts < 30
    · rw [if_pos (by exact ⟨trivial, ha⟩), hall (attempts + 1) (by omega)]
      exact ih (attempts + 1) (fun i hi => hall i (by omega))
    · rw [if_neg (fun hcc => ha hcc.2)]

/-- A concrete upload environment whose every `files.get` observation reports
"PROCESSING". -/
def allProcessingEnv : Analyze.UploadEnv :=
  { fetchOk := true, fetchStatus := "", fileSizeKB := 12,
    states := fun _ => "PROCESSING", fileUri := some "files/p",
    fileMimeType := some "application/pdf" }

/-- C7 counterexample: when the oracle reports "PROCESSING" at every poll,
exhausting the 30-attempt bound does not produce a terminal timeout error —
`uploadPdfFromUrl` returns the still-processing handle successfully. -/
theorem uploadPdf_timeout_counterexample :
    Analyze.uploadPdfFromUrl allProcessingEnv =
      .ok ({ state := "PROCESSING", uri := some "files/p",
             mimeType := some "application/pdf" }, 12) := by
  rfl

/-- C7 (as amended): the poll loop reads at most the observations with index
0..30 (30 loop iterations after the initial read); a final "FAILED" state is
a terminal error for the URL; and exhausting the attempt bound with the state
still "PROCESSING" exits the loop and returns the still-processing handle
without raising a timeout error (and without further polling). -/
theorem uploadPdf_poll_behaviour :
    (∀ s t : Nat → String, (∀ i, i ≤ 30 → s i = t i) →
      Analyze.pollFinal s = Analyze.pollFinal t) ∧
    (∀ env : Analyze.UploadEnv, env.fetchOk = true →
      Analyze.pollFinal env.states = "FAILED" →
      Analyze.uploadPdfFromUrl env = .error "Gemini file processing failed") ∧
    (∀ env : Analyze.UploadEnv, env.fetchOk = true →
      (∀ i, i ≤ 30 → env.states i = "PROCESSING") →
      Analyze.uploadPdfFromUrl env =
        .ok ({ state := "PROCESSING", uri := env.fileUri,
               mimeType := env.fileMimeType }, env.fileSizeKB)) := by
  refine ⟨?_, ?_, ?_⟩
  · intro s t hagree
    unfold Analyze.pollFinal
    rw [hagree 0 (by omega)]
    exact pollAux_congr s t 30 0 (t 0) (fun i hi => hagree i (by omega))
  · intro env hok hfail
    unfold Analyze.uploadPdfFromUrl
    rw [if_neg (by simp [hok]), if_pos hfail]
  · intro env hok hall
    have hfinal : Analyze.pollFinal env.states = "PROCESSING" := by
      unfold Analyze.pollFinal
      rw [hall 0 (by omega)]
      exact pollAux_processing env.states 30 0 hall
    unfold Analyze.uploadPdfFromUrl
    rw [if_neg (by simp [hok]), hfinal, if_neg (by decide)]

/-- A concrete upload environment whose first observation is already
"FAILED". -/
def failedEnv : Analyze.UploadEnv :=
  { fetchOk := true, fetchStatus := "", fileSizeKB := 3,
    states := fun _ => "FAILED", fileUri := some "files/f",
    fileMimeType := some "application/pdf" }

/-- Witness for C7: each part of `uploadPdf_poll_behaviour` at a concrete
environment — two state streams agreeing up to index 30 poll alike, a
"FAILED" stream is a terminal error, and an all-"PROCESSING" stream returns
the processing handle. -/
theorem uploadPdf_poll_behaviour_witness :
    Analyze.pollFinal (fun _ => "PROCESSING") =
      Analyze.pollFinal (fun i => if i ≤ 30 then "PROCESSING" else "ACTIVE") ∧
    Analyze.uploadPdfFromUrl failedEnv = .error "Gemini file processing failed" ∧
    Analyze.uploadPdfFromUrl allProcessingEnv =
      .ok ({ state := "PROCESSING", uri := allProcessingEnv.fileUri,
             mimeType := allProcessingEnv.fileMimeType },
        allProcessingEnv.fileSizeKB) :=
  ⟨uploadPdf_poll_behaviour.1 (fun _ => "PROCESSING")
      (fun i => if i ≤ 30 then "PROCESSING" else "ACTIVE")
      (fun i hi => by simp [hi]),
   uploadPdf_poll_behaviour.2.1 failedEnv rfl rfl,
   uploadPdf_poll_behaviour.2.2 allProcessingEnv rfl (fun i hi => rfl)⟩
